import Mathlib

/-!
Formal model of the coinexlib CoinEx API client (coinexLib.py).

The development shallowly embeds the request-signing and request-construction
core of the library: the signer (the method named underscore
generate_signature in the source), the request executor (the method named
underscore make_request), and the endpoint methods of the class CoinexAPI.
Python strings are Lean strings, Python byte strings are lists of Nat below
256, Python dicts are association lists in insertion order, and the clock
reading of the method underscore get_timestamp is passed as an explicit
millisecond argument.  The HTTP response is outside the model: the observable
outcome of a call is the outgoing HTTP request it constructs.

SHA-256 and HMAC-SHA256 are implemented concretely (the source delegates to
the Python hashlib and hmac modules); the implementation below follows FIPS
180-4 and RFC 2104 and is exercised on standard test vectors in witness
theorems further down.
-/

/-! ## SHA-256 (FIPS 180-4), over byte lists, words as Nat modulo 2 ^ 32 -/

/-- Truncation to a 32-bit word. -/
def w32 (n : Nat) : Nat := n % 4294967296

/-- Right rotation of a 32-bit word (the argument x is assumed below 2 ^ 32). -/
def rotr32 (x n : Nat) : Nat := x / 2 ^ n + x % 2 ^ n * 2 ^ (32 - n)

/-- The 64 SHA-256 round constants, written in decimal. -/
def shaK : List Nat :=
  [1116352408, 1899447441, 3049323471, 3921009573, 961987163, 1508970993,
   2453635748, 2870763221, 3624381080, 310598401, 607225278, 1426881987,
   1925078388, 2162078206, 2614888103, 3248222580, 3835390401, 4022224774,
   264347078, 604807628, 770255983, 1249150122, 1555081692, 1996064986,
   2554220882, 2821834349, 2952996808, 3210313671, 3336571891, 3584528711,
   113926993, 338241895, 666307205, 773529912, 1294757372, 1396182291,
   1695183700, 1986661051, 2177026350, 2456956037, 2730485921, 2820302411,
   3259730800, 3345764771, 3516065817, 3600352804, 4094571909, 275423344,
   430227734, 506948616, 659060556, 883997877, 958139571, 1322822218,
   1537002063, 1747873779, 1955562222, 2024104815, 2227730452, 2361852424,
   2428436474, 2756734187, 3204031479, 3329325298]

/-- The SHA-256 initial hash value, written in decimal. -/
def shaH0 : List Nat :=
  [1779033703, 3144134277, 1013904242, 2773480762,
   1359893119, 2600822924, 528734635, 1541459225]

/-- SHA-256 message padding: append 0x80, zero bytes up to 56 modulo 64, and
the message bit length as eight big-endian bytes. -/
def sha256pad (msg : List Nat) : List Nat :=
  let len := msg.length
  let zeros := (119 - len % 64) % 64
  let bitlen := len * 8
  msg ++ [0x80] ++ List.replicate zeros 0 ++
    [bitlen / 2 ^ 56 % 256, bitlen / 2 ^ 48 % 256, bitlen / 2 ^ 40 % 256, bitlen / 2 ^ 32 % 256,
     bitlen / 2 ^ 24 % 256, bitlen / 2 ^ 16 % 256, bitlen / 2 ^ 8 % 256, bitlen % 256]

/-- Group bytes into big-endian 32-bit words. -/
def bytesToWords : List Nat → List Nat
  | b0 :: b1 :: b2 :: b3 :: rest => (((b0 * 256 + b1) * 256 + b2) * 256 + b3) :: bytesToWords rest
  | _ => []

/-- Extend a 16-word block to the 64-word message schedule; the first argument
is the number of words still to append. -/
def extendW : Nat → List Nat → List Nat
  | 0, ws => ws
  | fuel + 1, ws =>
      let i := ws.length
      let x0 := ws.getD (i - 15) 0
      let s0 := rotr32 x0 7 ^^^ rotr32 x0 18 ^^^ x0 / 2 ^ 3
      let x1 := ws.getD (i - 2) 0
      let s1 := rotr32 x1 17 ^^^ rotr32 x1 19 ^^^ x1 / 2 ^ 10
      extendW fuel (ws ++ [w32 (ws.getD (i - 16) 0 + s0 + ws.getD (i - 7) 0 + s1)])

/-- One SHA-256 compression round on the eight-word working state. -/
def shaRound (w k : Nat) (st : List Nat) : List Nat :=
  let a := st.getD 0 0
  let b := st.getD 1 0
  let c := st.getD 2 0
  let d := st.getD 3 0
  let e := st.getD 4 0
  let f := st.getD 5 0
  let g := st.getD 6 0
  let h := st.getD 7 0
  let S1 := rotr32 e 6 ^^^ rotr32 e 11 ^^^ rotr32 e 25
  let ch := (e &&& f) ^^^ ((e ^^^ 4294967295) &&& g)
  let temp1 := w32 (h + S1 + ch + k + w)
  let S0 := rotr32 a 2 ^^^ rotr32 a 13 ^^^ rotr32 a 22
  let maj := (a &&& b) ^^^ (a &&& c) ^^^ (b &&& c)
  let temp2 := w32 (S0 + maj)
  [w32 (temp1 + temp2), a, b, c, w32 (d + temp1), e, f, g]

/-- Run the compression rounds, consuming the schedule and the constants. -/
def shaRounds : List Nat → List Nat → List Nat → List Nat
  | [], _, st => st
  | _ :: _, [], st => st
  | w :: ws, k :: ks, st => shaRounds ws ks (shaRound w k st)

/-- Compress one 64-byte chunk into the running hash value. -/
def shaCompress (H chunk : List Nat) : List Nat :=
  let ws := extendW 48 (bytesToWords chunk)
  let st := shaRounds ws shaK H
  List.zipWith (fun x y => w32 (x + y)) H st

/-- Fold the compression function over successive 64-byte chunks. -/
def shaChunks : Nat → List Nat → List Nat → List Nat
  | 0, _, H => H
  | _, [], H => H
  | fuel + 1, bytes, H => shaChunks fuel (bytes.drop 64) (shaCompress H (bytes.take 64))

/-- SHA-256 of a byte list, as a list of 32 bytes. -/
def sha256 (msg : List Nat) : List Nat :=
  let padded := sha256pad msg
  let H := shaChunks (padded.length / 64) padded shaH0
  H.foldr (fun w acc => w / 2 ^ 24 % 256 :: w / 2 ^ 16 % 256 :: w / 2 ^ 8 % 256 :: w % 256 :: acc) []

/-- HMAC-SHA256 (RFC 2104) with a 64-byte block size. -/
def hmacSha256 (key msg : List Nat) : List Nat :=
  let key1 := if 64 < key.length then sha256 key else key
  let key0 := key1 ++ List.replicate (64 - key1.length) 0
  let opad := key0.map (fun b => b ^^^ 0x5c)
  let ipad := key0.map (fun b => b ^^^ 0x36)
  sha256 (opad ++ sha256 (ipad ++ msg))

/-! ## Hexadecimal rendering and Python string primitives -/

/-- Lower-case hexadecimal digit of a value below 16. -/
def hexDigit (n : Nat) : Char := if n < 10 then Char.ofNat (48 + n) else Char.ofNat (87 + n)

/-- Two lower-case hexadecimal characters per byte. -/
def bytesToHexChars : List Nat → List Char
  | [] => []
  | b :: bs => hexDigit (b / 16 % 16) :: hexDigit (b % 16) :: bytesToHexChars bs

/-- Model of the hexdigest method of a hashlib digest: lower-case hex string. -/
def hexOfBytes (bs : List Nat) : String := String.mk (bytesToHexChars bs)

/-- Model of the Python expression bytes(s, latin-1): the codepoint of each
character, one byte per character.  The source only ever encodes texts whose
codepoints are below 256, where this model agrees with Python; on larger
codepoints Python raises and this model totalizes to the codepoint. -/
def latin1 (s : String) : List Nat := s.data.map Char.toNat

/-- Model of the Python string method lower. -/
def pyLower (s : String) : String := String.mk (s.data.map Char.toLower)

/-- Model of the Python string method upper. -/
def pyUpper (s : String) : String := String.mk (s.data.map Char.toUpper)

/-! ## Python values and JSON serialization

The request parameter and body dictionaries of the source hold strings,
integers, booleans, and (for the batch endpoints) lists of such dictionaries.
JVal covers exactly these value shapes; a Python dict is an association list
in insertion order. -/

inductive JVal where
  | str : String → JVal
  | int : Int → JVal
  | bool : Bool → JVal
  | arr : List JVal → JVal
  | obj : List (String × JVal) → JVal

/-- A Python dict with string keys, in insertion order. -/
abbrev PyDict := List (String × JVal)

/-- Four lower-case hexadecimal characters, most significant first. -/
def hex4 (n : Nat) : String :=
  String.mk [hexDigit (n / 4096 % 16), hexDigit (n / 256 % 16), hexDigit (n / 16 % 16), hexDigit (n % 16)]

/-- JSON escaping of one character, as done by json.dumps with its default
ensure-ascii behaviour: the two-character escapes, unescaped printable ASCII,
and backslash-u escapes (with surrogate pairs above the basic plane). -/
def jsonEscapeChar (c : Char) : String :=
  if c = '\\' then "\\\\"
  else if c = '"' then "\\\""
  else if c = Char.ofNat 8 then "\\b"
  else if c = Char.ofNat 12 then "\\f"
  else if c = '\n' then "\\n"
  else if c = '\r' then "\\r"
  else if c = '\t' then "\\t"
  else if 32 ≤ c.toNat ∧ c.toNat ≤ 126 then String.singleton c
  else if c.toNat < 65536 then "\\u" ++ hex4 c.toNat
  else "\\u" ++ hex4 (0xd800 + (c.toNat - 65536) / 1024) ++ "\\u" ++ hex4 (0xdc00 + (c.toNat - 65536) % 1024)

/-- JSON escaping of a string body, character by character. -/
def jsonEscape (s : String) : String := String.join (s.data.map jsonEscapeChar)

mutual

/-- Model of json.dumps on one value, with the default separators: a comma
and a space between items, a colon and a space after each key. -/
def dumpJVal : JVal → String
  | .str s => "\"" ++ jsonEscape s ++ "\""
  | .int n => toString n
  | .bool b => if b then "true" else "false"
  | .arr xs => "[" ++ dumpArr xs ++ "]"
  | .obj kvs => "\x7b" ++ dumpObj kvs ++ "\x7d"

/-- Elements of a JSON array, joined by a comma and a space. -/
def dumpArr : List JVal → String
  | [] => ""
  | [x] => dumpJVal x
  | x :: y :: xs => dumpJVal x ++ ", " ++ dumpArr (y :: xs)

/-- Members of a JSON object, joined by a comma and a space, each key quoted
and followed by a colon and a space. -/
def dumpObj : List (String × JVal) → String
  | [] => ""
  | [(k, v)] => "\"" ++ jsonEscape k ++ "\": " ++ dumpJVal v
  | (k, v) :: kv :: kvs => "\"" ++ jsonEscape k ++ "\": " ++ dumpJVal v ++ ", " ++ dumpObj (kv :: kvs)

end

/-- Model of json.dumps applied to a Python dict, as the source does on each
request body. -/
def jsonDumps (d : PyDict) : String := dumpJVal (.obj d)

mutual

/-- Model of the Python function repr on a JVal, used only through pyStr when
a container ends up inside an f-string.  String quoting is modelled as plain
single quotes; no endpoint of the source places a container in a query
parameter, so only the scalar cases are ever reached from the client model. -/
def pyRepr : JVal → String
  | .str s => "'" ++ s ++ "'"
  | .int n => toString n
  | .bool b => if b then "True" else "False"
  | .arr xs => "[" ++ pyReprArr xs ++ "]"
  | .obj kvs => "\x7b" ++ pyReprObj kvs ++ "\x7d"

/-- Elements of a Python list repr, joined by a comma and a space. -/
def pyReprArr : List JVal → String
  | [] => ""
  | [x] => pyRepr x
  | x :: y :: xs => pyRepr x ++ ", " ++ pyReprArr (y :: xs)

/-- Members of a Python dict repr, joined by a comma and a space. -/
def pyReprObj : List (String × JVal) → String
  | [] => ""
  | [(k, v)] => "'" ++ k ++ "': " ++ pyRepr v
  | (k, v) :: kv :: kvs => "'" ++ k ++ "': " ++ pyRepr v ++ ", " ++ pyReprObj (kv :: kvs)

end

/-- Model of Python str conversion inside an f-string, as used by the query
string builder of the request executor. -/
def pyStr : JVal → String
  | .str s => s
  | .int n => toString n
  | .bool b => if b then "True" else "False"
  | .arr xs => pyRepr (.arr xs)
  | .obj kvs => pyRepr (.obj kvs)

/-! ## The CoinexAPI client: signer and request executor

Embeds the class CoinexAPI of coinexLib.py.  The constructor stores the two
credentials; the signer and the request executor are pure functions of the
client state, the call arguments, and the clock reading in milliseconds. -/

structure CoinexAPI where
  access_id : String
  secret_key : String

/-- Embeds the constructor of CoinexAPI (coinexLib.py lines 32-40): it stores
the access id and the secret key on the client. -/
def CoinexAPI.init (access_id secret_key : String) : CoinexAPI :=
  { access_id := access_id, secret_key := secret_key }

/-- The class attribute BASE_URL (coinexLib.py line 30). -/
def BASE_URL : String := "https://api.coinex.com"

/-- Embeds the timestamp helper (coinexLib.py lines 42-44): the clock reading
in milliseconds, formatted as a decimal string.  The reading itself is the
explicit argument now_ms. -/
def CoinexAPI.get_timestamp (_api : CoinexAPI) (now_ms : Nat) : String := toString now_ms

/-- Python truthiness of an optional dict, as tested by the conditionals
if body and if params of the source: true exactly when the dict is present
and non-empty. -/
def dictTruthy : Option PyDict → Bool
  | some (_ :: _) => true
  | _ => false

/-- The body string of the signer (coinexLib.py line 56): the JSON dump of
the body when the body is truthy, the empty string otherwise. -/
def body_string (body : Option PyDict) : String :=
  if dictTruthy body then jsonDumps (body.getD []) else ""

/-- Embeds the signer method of CoinexAPI (coinexLib.py lines 46-64, named
with a leading underscore in the source).  It reads the clock, builds the
prepared string from method, request path, body string and timestamp, and
returns the lower-cased HMAC-SHA256 hex digest together with the timestamp. -/
def CoinexAPI.generate_signature (api : CoinexAPI) (method request_path : String)
    (body : Option PyDict) (now_ms : Nat) : String × String :=
  let timestamp := api.get_timestamp now_ms
  let body_str := body_string body
  let prepared_str := method ++ request_path ++ body_str ++ timestamp
  let signed_str :=
    pyLower (hexOfBytes (hmacSha256 (latin1 api.secret_key) (latin1 prepared_str)))
  (signed_str, timestamp)

/-- The query string of the request executor (coinexLib.py line 79): the
key equals value pairs of the params dict, in insertion order, joined by
ampersands, with no percent-encoding. -/
def queryString (params : PyDict) : String :=
  String.intercalate "&" (params.map (fun kv => kv.1 ++ "=" ++ pyStr kv.2))

/-- The request path of the request executor (coinexLib.py lines 77-80):
the prefix slash v2 before the endpoint, and the question mark plus query
string exactly when the params dict is truthy. -/
def requestPath (endpoint : String) (params : Option PyDict) : String :=
  let path := "/v2" ++ endpoint
  if dictTruthy params then path ++ "?" ++ queryString (params.getD []) else path

/-- The outgoing HTTP request handed to requests.request (coinexLib.py
line 92): method, final URL, header list in construction order, and the
JSON body dict. -/
structure HttpRequest where
  method : String
  url : String
  headers : List (String × String)
  jsonBody : Option PyDict

/-- Embeds the request executor of CoinexAPI (coinexLib.py lines 66-93, named
with a leading underscore in the source).  It upper-cases the method, builds
the request path with the optional query string, signs, attaches the four
headers, and issues the request to the base URL plus the request path.  The
model returns the outgoing request; the network exchange and the JSON
decoding of the response are outside the model. -/
def CoinexAPI.make_request (api : CoinexAPI) (method endpoint : String)
    (params data : Option PyDict) (now_ms : Nat) : HttpRequest :=
  let method := pyUpper method
  let request_path := requestPath endpoint params
  let sg := api.generate_signature method request_path data now_ms
  { method := method
    url := BASE_URL ++ request_path
    headers :=
      [("X-COINEX-KEY", api.access_id),
       ("X-COINEX-SIGN", sg.1),
       ("X-COINEX-TIMESTAMP", sg.2),
       ("Content-Type", "application/json; charset=utf-8")]
    jsonBody := data }

/-! ## Endpoint methods

One definition per public endpoint method of CoinexAPI, in source order.
Dicts built conditionally in the source get a named builder definition so
that theorems can speak about the parameter mapping itself.  Optional Python
arguments defaulting to None are Option values; arguments whose source
default is a literal are plain values with the caller supplying them. -/

/-- Python truthiness of an optional string argument (None and the empty
string are falsy). -/
def optStrTruthy : Option String → Bool
  | some s => s != ""
  | none => false

/-- Python truthiness of an optional integer argument (None and zero are
falsy). -/
def optIntTruthy : Option Int → Bool
  | some n => n != 0
  | none => false

/-- Params of get_market_status (coinexLib.py line 103): the market filter
when the market string is truthy, the empty dict otherwise. -/
def get_market_status_params (market : String) : PyDict :=
  if market != "" then [("market", JVal.str market)] else []

/-- Embeds get_market_status (coinexLib.py lines 95-104). -/
def CoinexAPI.get_market_status (api : CoinexAPI) (market : String) (now_ms : Nat) : HttpRequest :=
  api.make_request "GET" "/spot/market" (some (get_market_status_params market)) none now_ms

/-- Embeds get_market_transactions (coinexLib.py lines 106-120). -/
def CoinexAPI.get_market_transactions (api : CoinexAPI) (market : String)
    (limit last_id : Int) (now_ms : Nat) : HttpRequest :=
  api.make_request "GET" "/spot/deals"
    (some [("market", JVal.str market), ("limit", JVal.int limit), ("last_id", JVal.int last_id)])
    none now_ms

/-- Params of get_market_index (coinexLib.py line 130). -/
def get_market_index_params (market : String) : PyDict :=
  if market != "" then [("market", JVal.str market)] else []

/-- Embeds get_market_index (coinexLib.py lines 122-131). -/
def CoinexAPI.get_market_index (api : CoinexAPI) (market : String) (now_ms : Nat) : HttpRequest :=
  api.make_request "GET" "/spot/index" (some (get_market_index_params market)) none now_ms

/-- Params of get_user_transactions (coinexLib.py lines 147-158): the four
required keys, then side, start time and end time appended in that order,
each gated by Python truthiness of the argument. -/
def get_user_transactions_params (market market_type : String) (side : Option String)
    (start_time end_time : Option Int) (page limit : Int) : PyDict :=
  let params := [("market", JVal.str market), ("market_type", JVal.str market_type),
                 ("page", JVal.int page), ("limit", JVal.int limit)]
  let params := if optStrTruthy side then params ++ [("side", JVal.str (side.getD ""))] else params
  let params := if optIntTruthy start_time then params ++ [("start_time", JVal.int (start_time.getD 0))] else params
  let params := if optIntTruthy end_time then params ++ [("end_time", JVal.int (end_time.getD 0))] else params
  params

/-- Embeds get_user_transactions (coinexLib.py lines 133-160). -/
def CoinexAPI.get_user_transactions (api : CoinexAPI) (market market_type : String)
    (side : Option String) (start_time end_time : Option Int) (page limit : Int)
    (now_ms : Nat) : HttpRequest :=
  api.make_request "GET" "/spot/user-deals"
    (some (get_user_transactions_params market market_type side start_time end_time page limit))
    none now_ms

/-- Embeds get_user_order_transactions (coinexLib.py lines 162-180). -/
def CoinexAPI.get_user_order_transactions (api : CoinexAPI) (market market_type : String)
    (order_id page limit : Int) (now_ms : Nat) : HttpRequest :=
  api.make_request "GET" "/spot/order-deals"
    (some [("market", JVal.str market), ("market_type", JVal.str market_type),
           ("order_id", JVal.int order_id), ("page", JVal.int page), ("limit", JVal.int limit)])
    none now_ms

/-- Embeds get_market_depth (coinexLib.py lines 183-197). -/
def CoinexAPI.get_market_depth (api : CoinexAPI) (market : String) (limit : Int)
    (interval : String) (now_ms : Nat) : HttpRequest :=
  api.make_request "GET" "/spot/depth"
    (some [("market", JVal.str market), ("limit", JVal.int limit), ("interval", JVal.str interval)])
    none now_ms

/-- Embeds get_market_depth_futures (coinexLib.py lines 199-213). -/
def CoinexAPI.get_market_depth_futures (api : CoinexAPI) (market : String) (limit : Int)
    (interval : String) (now_ms : Nat) : HttpRequest :=
  api.make_request "GET" "/futures/depth"
    (some [("market", JVal.str market), ("limit", JVal.int limit), ("interval", JVal.str interval)])
    none now_ms

/-- Embeds get_market_deals (coinexLib.py lines 215-229). -/
def CoinexAPI.get_market_deals (api : CoinexAPI) (market : String)
    (limit last_id : Int) (now_ms : Nat) : HttpRequest :=
  api.make_request "GET" "/spot/deals"
    (some [("market", JVal.str market), ("limit", JVal.int limit), ("last_id", JVal.int last_id)])
    none now_ms

/-- Embeds get_market_deals_futures (coinexLib.py lines 230-244). -/
def CoinexAPI.get_market_deals_futures (api : CoinexAPI) (market : String)
    (limit last_id : Int) (now_ms : Nat) : HttpRequest :=
  api.make_request "GET" "/futures/deals"
    (some [("market", JVal.str market), ("limit", JVal.int limit), ("last_id", JVal.int last_id)])
    none now_ms

/-- Embeds get_market_candlesticks (coinexLib.py lines 246-260). -/
def CoinexAPI.get_market_candlesticks (api : CoinexAPI) (market : String) (limit : Int)
    (period : String) (now_ms : Nat) : HttpRequest :=
  api.make_request "GET" "/spot/kline"
    (some [("market", JVal.str market), ("limit", JVal.int limit), ("period", JVal.str period)])
    none now_ms

/-- Embeds get_market_candlesticks_futures (coinexLib.py lines 262-278); note
the source inserts price_type second. -/
def CoinexAPI.get_market_candlesticks_futures (api : CoinexAPI) (market : String) (limit : Int)
    (period price_type : String) (now_ms : Nat) : HttpRequest :=
  api.make_request "GET" "/futures/kline"
    (some [("market", JVal.str market), ("price_type", JVal.str price_type),
           ("limit", JVal.int limit), ("period", JVal.str period)])
    none now_ms

/-- Params of get_market_information (coinexLib.py line 288). -/
def get_market_information_params (market : String) : PyDict :=
  if market != "" then [("market", JVal.str market)] else []

/-- Embeds get_market_information (coinexLib.py lines 280-289). -/
def CoinexAPI.get_market_information (api : CoinexAPI) (market : String) (now_ms : Nat) : HttpRequest :=
  api.make_request "GET" "/spot/ticker" (some (get_market_information_params market)) none now_ms

/-- Embeds get_market_information_futures (coinexLib.py lines 291-301). -/
def CoinexAPI.get_market_information_futures (api : CoinexAPI) (market : String)
    (now_ms : Nat) : HttpRequest :=
  api.make_request "GET" "/futures/ticker" (some [("market", JVal.str market)]) none now_ms

/-- Embeds get_balance (coinexLib.py lines 303-309). -/
def CoinexAPI.get_balance (api : CoinexAPI) (now_ms : Nat) : HttpRequest :=
  api.make_request "GET" "/assets/spot/balance" none none now_ms

/-- Embeds get_balance_futures (coinexLib.py lines 311-317). -/
def CoinexAPI.get_balance_futures (api : CoinexAPI) (now_ms : Nat) : HttpRequest :=
  api.make_request "GET" "/assets/futures/balance" none none now_ms

/-- Embeds adjust_position_leverage (coinexLib.py lines 319-335). -/
def CoinexAPI.adjust_position_leverage (api : CoinexAPI) (market market_type margin_mode : String)
    (leverage : Int) (now_ms : Nat) : HttpRequest :=
  api.make_request "POST" "/futures/adjust-position-leverage" none
    (some [("market", JVal.str market), ("market_type", JVal.str market_type),
           ("margin_mode", JVal.str margin_mode), ("leverage", JVal.int leverage)])
    now_ms

/-- Embeds get_current_position (coinexLib.py lines 337-353). -/
def CoinexAPI.get_current_position (api : CoinexAPI) (market market_type : String)
    (page limit : Int) (now_ms : Nat) : HttpRequest :=
  api.make_request "GET" "/futures/pending-position"
    (some [("market", JVal.str market), ("market_type", JVal.str market_type),
           ("page", JVal.int page), ("limit", JVal.int limit)])
    none now_ms

/-- Body of place_order (coinexLib.py lines 372-387): six required keys (the
order type under the key named type), then price, ccy, client id and stp mode
appended in that order, each gated on the argument not being None. -/
def place_order_data (market market_type side order_type amount : String)
    (price ccy client_id : Option String) (is_hide : Bool) (stp_mode : Option String) : PyDict :=
  let data := [("market", JVal.str market), ("market_type", JVal.str market_type),
               ("side", JVal.str side), ("type", JVal.str order_type),
               ("amount", JVal.str amount), ("is_hide", JVal.bool is_hide)]
  let data := match price with | some v => data ++ [("price", JVal.str v)] | none => data
  let data := match ccy with | some v => data ++ [("ccy", JVal.str v)] | none => data
  let data := match client_id with | some v => data ++ [("client_id", JVal.str v)] | none => data
  let data := match stp_mode with | some v => data ++ [("stp_mode", JVal.str v)] | none => data
  data

/-- Embeds place_order (coinexLib.py lines 355-389). -/
def CoinexAPI.place_order (api : CoinexAPI) (market market_type side order_type amount : String)
    (price ccy client_id : Option String) (is_hide : Bool) (stp_mode : Option String)
    (now_ms : Nat) : HttpRequest :=
  api.make_request "POST" "/spot/order" none
    (some (place_order_data market market_type side order_type amount price ccy client_id is_hide stp_mode))
    now_ms

/-- Body of place_order_futures (coinexLib.py lines 406-419). -/
def place_order_futures_data (market market_type side order_type amount : String)
    (price client_id : Option String) (is_hide : Bool) (stp_mode : Option String) : PyDict :=
  let data := [("market", JVal.str market), ("market_type", JVal.str market_type),
               ("side", JVal.str side), ("type", JVal.str order_type),
               ("amount", JVal.str amount), ("is_hide", JVal.bool is_hide)]
  let data := match price with | some v => data ++ [("price", JVal.str v)] | none => data
  let data := match client_id with | some v => data ++ [("client_id", JVal.str v)] | none => data
  let data := match stp_mode with | some v => data ++ [("stp_mode", JVal.str v)] | none => data
  data

/-- Embeds place_order_futures (coinexLib.py lines 391-421). -/
def CoinexAPI.place_order_futures (api : CoinexAPI)
    (market market_type side order_type amount : String) (price client_id : Option String)
    (is_hide : Bool) (stp_mode : Option String) (now_ms : Nat) : HttpRequest :=
  api.make_request "POST" "/futures/order" none
    (some (place_order_futures_data market market_type side order_type amount price client_id is_hide stp_mode))
    now_ms

/-- Body of place_stop_order (coinexLib.py lines 441-457). -/
def place_stop_order_data (market market_type side order_type amount trigger_price : String)
    (price ccy client_id : Option String) (is_hide : Bool) (stp_mode : Option String) : PyDict :=
  let data := [("market", JVal.str market), ("market_type", JVal.str market_type),
               ("side", JVal.str side), ("type", JVal.str order_type),
               ("amount", JVal.str amount), ("trigger_price", JVal.str trigger_price),
               ("is_hide", JVal.bool is_hide)]
  let data := match price with | some v => data ++ [("price", JVal.str v)] | none => data
  let data := match ccy with | some v => data ++ [("ccy", JVal.str v)] | none => data
  let data := match client_id with | some v => data ++ [("client_id", JVal.str v)] | none => data
  let data := match stp_mode with | some v => data ++ [("stp_mode", JVal.str v)] | none => data
  data

/-- Embeds place_stop_order (coinexLib.py lines 423-459). -/
def CoinexAPI.place_stop_order (api : CoinexAPI)
    (market market_type side order_type amount trigger_price : String)
    (price ccy client_id : Option String) (is_hide : Bool) (stp_mode : Option String)
    (now_ms : Nat) : HttpRequest :=
  api.make_request "POST" "/spot/stop-order" none
    (some (place_stop_order_data market market_type side order_type amount trigger_price price ccy client_id is_hide stp_mode))
    now_ms

/-- Embeds batch_place_orders (coinexLib.py lines 461-472). -/
def CoinexAPI.batch_place_orders (api : CoinexAPI) (orders : List JVal) (now_ms : Nat) : HttpRequest :=
  api.make_request "POST" "/spot/batch-order" none (some [("orders", JVal.arr orders)]) now_ms

/-- Embeds batch_place_stop_orders (coinexLib.py lines 474-485). -/
def CoinexAPI.batch_place_stop_orders (api : CoinexAPI) (orders : List JVal) (now_ms : Nat) : HttpRequest :=
  api.make_request "POST" "/spot/batch-stop-order" none (some [("orders", JVal.arr orders)]) now_ms

/-- Embeds query_order_status (coinexLib.py lines 487-499). -/
def CoinexAPI.query_order_status (api : CoinexAPI) (market : String) (order_id : Int)
    (now_ms : Nat) : HttpRequest :=
  api.make_request "GET" "/spot/order-status"
    (some [("market", JVal.str market), ("order_id", JVal.int order_id)]) none now_ms

/-- Embeds query_order_status_futures (coinexLib.py lines 501-513). -/
def CoinexAPI.query_order_status_futures (api : CoinexAPI) (market : String) (order_id : Int)
    (now_ms : Nat) : HttpRequest :=
  api.make_request "GET" "/futures/order-status"
    (some [("market", JVal.str market), ("order_id", JVal.int order_id)]) none now_ms

/-- Embeds batch_query_order_status (coinexLib.py lines 515-527); the order
ids travel as one comma-separated string. -/
def CoinexAPI.batch_query_order_status (api : CoinexAPI) (market order_ids : String)
    (now_ms : Nat) : HttpRequest :=
  api.make_request "GET" "/spot/batch-order-status"
    (some [("market", JVal.str market), ("order_ids", JVal.str order_ids)]) none now_ms

/-- Params of get_unfilled_order (coinexLib.py lines 541-551): three required
keys, then market, side and client id appended in that order, each gated on
the argument not being None. -/
def get_unfilled_order_params (market_type : String) (market side client_id : Option String)
    (page limit : Int) : PyDict :=
  let params := [("market_type", JVal.str market_type), ("page", JVal.int page), ("limit", JVal.int limit)]
  let params := match market with | some v => params ++ [("market", JVal.str v)] | none => params
  let params := match side with | some v => params ++ [("side", JVal.str v)] | none => params
  let params := match client_id with | some v => params ++ [("client_id", JVal.str v)] | none => params
  params

/-- Embeds get_unfilled_order (coinexLib.py lines 529-553). -/
def CoinexAPI.get_unfilled_order (api : CoinexAPI) (market_type : String)
    (market side client_id : Option String) (page limit : Int) (now_ms : Nat) : HttpRequest :=
  api.make_request "GET" "/spot/pending-order"
    (some (get_unfilled_order_params market_type market side client_id page limit)) none now_ms

/-- Params of get_filled_order (coinexLib.py lines 566-574). -/
def get_filled_order_params (market_type : String) (market side : Option String)
    (page limit : Int) : PyDict :=
  let params := [("market_type", JVal.str market_type), ("page", JVal.int page), ("limit", JVal.int limit)]
  let params := match market with | some v => params ++ [("market", JVal.str v)] | none => params
  let params := match side with | some v => params ++ [("side", JVal.str v)] | none => params
  params

/-- Embeds get_filled_order (coinexLib.py lines 555-575). -/
def CoinexAPI.get_filled_order (api : CoinexAPI) (market_type : String)
    (market side : Option String) (page limit : Int) (now_ms : Nat) : HttpRequest :=
  api.make_request "GET" "/spot/finished-order"
    (some (get_filled_order_params market_type market side page limit)) none now_ms

/-- Params of get_unfilled_stop_order (coinexLib.py lines 588-597). -/
def get_unfilled_stop_order_params (market_type : String) (market side : Option String)
    (page limit : Int) : PyDict :=
  let params := [("market_type", JVal.str market_type), ("page", JVal.int page), ("limit", JVal.int limit)]
  let params := match market with | some v => params ++ [("market", JVal.str v)] | none => params
  let params := match side with | some v => params ++ [("side", JVal.str v)] | none => params
  params

/-- Embeds get_unfilled_stop_order (coinexLib.py lines 577-598). -/
def CoinexAPI.get_unfilled_stop_order (api : CoinexAPI) (market_type : String)
    (market side : Option String) (page limit : Int) (now_ms : Nat) : HttpRequest :=
  api.make_request "GET" "/spot/pending-stop-order"
    (some (get_unfilled_stop_order_params market_type market side page limit)) none now_ms

/-- Body of modify_order (coinexLib.py lines 611-620). -/
def modify_order_data (market market_type : String) (order_id : Int)
    (amount price : Option String) : PyDict :=
  let data := [("market", JVal.str market), ("market_type", JVal.str market_type),
               ("order_id", JVal.int order_id)]
  let data := match amount with | some v => data ++ [("amount", JVal.str v)] | none => data
  let data := match price with | some v => data ++ [("price", JVal.str v)] | none => data
  data

/-- Embeds modify_order (coinexLib.py lines 600-621). -/
def CoinexAPI.modify_order (api : CoinexAPI) (market market_type : String) (order_id : Int)
    (amount price : Option String) (now_ms : Nat) : HttpRequest :=
  api.make_request "POST" "/spot/modify-order" none
    (some (modify_order_data market market_type order_id amount price)) now_ms

/-- Body of modify_stop_order (coinexLib.py lines 636-646). -/
def modify_stop_order_data (market market_type : String) (stop_id : Int)
    (amount price trigger_price : Option String) : PyDict :=
  let data := [("market", JVal.str market), ("market_type", JVal.str market_type),
               ("stop_id", JVal.int stop_id)]
  let data := match amount with | some v => data ++ [("amount", JVal.str v)] | none => data
  let data := match price with | some v => data ++ [("price", JVal.str v)] | none => data
  let data := match trigger_price with | some v => data ++ [("trigger_price", JVal.str v)] | none => data
  data

/-- Embeds modify_stop_order (coinexLib.py lines 623-647). -/
def CoinexAPI.modify_stop_order (api : CoinexAPI) (market market_type : String) (stop_id : Int)
    (amount price trigger_price : Option String) (now_ms : Nat) : HttpRequest :=
  api.make_request "POST" "/spot/modify-stop-order" none
    (some (modify_stop_order_data market market_type stop_id amount price trigger_price)) now_ms

/-- Body of cancel_all_orders (coinexLib.py lines 658-663). -/
def cancel_all_orders_data (market market_type : String) (side : Option String) : PyDict :=
  let data := [("market", JVal.str market), ("market_type", JVal.str market_type)]
  let data := match side with | some v => data ++ [("side", JVal.str v)] | none => data
  data

/-- Embeds cancel_all_orders (coinexLib.py lines 649-664). -/
def CoinexAPI.cancel_all_orders (api : CoinexAPI) (market market_type : String)
    (side : Option String) (now_ms : Nat) : HttpRequest :=
  api.make_request "POST" "/spot/cancel-all-order" none
    (some (cancel_all_orders_data market market_type side)) now_ms

/-- Embeds cancel_order (coinexLib.py lines 666-680). -/
def CoinexAPI.cancel_order (api : CoinexAPI) (market market_type : String) (order_id : Int)
    (now_ms : Nat) : HttpRequest :=
  api.make_request "POST" "/spot/cancel-order" none
    (some [("market", JVal.str market), ("market_type", JVal.str market_type),
           ("order_id", JVal.int order_id)]) now_ms

/-- Embeds cancel_stop_order (coinexLib.py lines 682-696). -/
def CoinexAPI.cancel_stop_order (api : CoinexAPI) (market market_type : String) (stop_id : Int)
    (now_ms : Nat) : HttpRequest :=
  api.make_request "POST" "/spot/cancel-stop-order" none
    (some [("market", JVal.str market), ("market_type", JVal.str market_type),
           ("stop_id", JVal.int stop_id)]) now_ms

/-- Embeds cancel_batch_orders (coinexLib.py lines 698-710); the order ids
travel as a JSON list. -/
def CoinexAPI.cancel_batch_orders (api : CoinexAPI) (market : String) (order_ids : List JVal)
    (now_ms : Nat) : HttpRequest :=
  api.make_request "POST" "/spot/cancel-batch-order" none
    (some [("market", JVal.str market), ("order_ids", JVal.arr order_ids)]) now_ms

/-- Embeds cancel_batch_stop_orders (coinexLib.py lines 712-724). -/
def CoinexAPI.cancel_batch_stop_orders (api : CoinexAPI) (market : String) (stop_ids : List JVal)
    (now_ms : Nat) : HttpRequest :=
  api.make_request "POST" "/spot/cancel-batch-stop-order" none
    (some [("market", JVal.str market), ("stop_ids", JVal.arr stop_ids)]) now_ms

/-- Embeds cancel_order_by_client_id (coinexLib.py lines 726-740). -/
def CoinexAPI.cancel_order_by_client_id (api : CoinexAPI) (market market_type client_id : String)
    (now_ms : Nat) : HttpRequest :=
  api.make_request "POST" "/spot/cancel-order-by-client-id" none
    (some [("market", JVal.str market), ("market_type", JVal.str market_type),
           ("client_id", JVal.str client_id)]) now_ms

/-- Embeds cancel_stop_order_by_client_id (coinexLib.py lines 742-756). -/
def CoinexAPI.cancel_stop_order_by_client_id (api : CoinexAPI)
    (market market_type client_id : String) (now_ms : Nat) : HttpRequest :=
  api.make_request "POST" "/spot/cancel-stop-order-by-client-id" none
    (some [("market", JVal.str market), ("market_type", JVal.str market_type),
           ("client_id", JVal.str client_id)]) now_ms

/-- Body of close_position_futures (coinexLib.py lines 773-786). -/
def close_position_futures_data (market market_type order_type : String)
    (price amount client_id : Option String) (is_hide : Bool) (stp_mode : Option String) : PyDict :=
  let data := [("market", JVal.str market), ("market_type", JVal.str market_type),
               ("type", JVal.str order_type), ("is_hide", JVal.bool is_hide)]
  let data := match price with | some v => data ++ [("price", JVal.str v)] | none => data
  let data := match amount with | some v => data ++ [("amount", JVal.str v)] | none => data
  let data := match client_id with | some v => data ++ [("client_id", JVal.str v)] | none => data
  let data := match stp_mode with | some v => data ++ [("stp_mode", JVal.str v)] | none => data
  data

/-- Embeds close_position_futures (coinexLib.py lines 758-788). -/
def CoinexAPI.close_position_futures (api : CoinexAPI) (market market_type order_type : String)
    (price amount client_id : Option String) (is_hide : Bool) (stp_mode : Option String)
    (now_ms : Nat) : HttpRequest :=
  api.make_request "POST" "/futures/close-position" none
    (some (close_position_futures_data market market_type order_type price amount client_id is_hide stp_mode))
    now_ms

/-! ## State-threaded execution

Python method calls can in principle mutate the receiver.  ApiCall enumerates
every public endpoint method of CoinexAPI together with the request executor;
dispatch maps a call to the request the method constructs, and step is the
state-threaded form of a call: the pair of the constructed request and the
client state after the call.  No method body of the source assigns any
attribute of self (each body only reads access_id, secret_key and BASE_URL),
so the translated post-state is the unchanged receiver. -/

inductive ApiCall where
  | get_market_status (market : String)
  | get_market_transactions (market : String) (limit last_id : Int)
  | get_market_index (market : String)
  | get_user_transactions (market market_type : String) (side : Option String)
      (start_time end_time : Option Int) (page limit : Int)
  | get_user_order_transactions (market market_type : String) (order_id page limit : Int)
  | get_market_depth (market : String) (limit : Int) (interval : String)
  | get_market_depth_futures (market : String) (limit : Int) (interval : String)
  | get_market_deals (market : String) (limit last_id : Int)
  | get_market_deals_futures (market : String) (limit last_id : Int)
  | get_market_candlesticks (market : String) (limit : Int) (period : String)
  | get_market_candlesticks_futures (market : String) (limit : Int) (period price_type : String)
  | get_market_information (market : String)
  | get_market_information_futures (market : String)
  | get_balance
  | get_balance_futures
  | adjust_position_leverage (market market_type margin_mode : String) (leverage : Int)
  | get_current_position (market market_type : String) (page limit : Int)
  | place_order (market market_type side order_type amount : String)
      (price ccy client_id : Option String) (is_hide : Bool) (stp_mode : Option String)
  | place_order_futures (market market_type side order_type amount : String)
      (price client_id : Option String) (is_hide : Bool) (stp_mode : Option String)
  | place_stop_order (market market_type side order_type amount trigger_price : String)
      (price ccy client_id : Option String) (is_hide : Bool) (stp_mode : Option String)
  | batch_place_orders (orders : List JVal)
  | batch_place_stop_orders (orders : List JVal)
  | query_order_status (market : String) (order_id : Int)
  | query_order_status_futures (market : String) (order_id : Int)
  | batch_query_order_status (market order_ids : String)
  | get_unfilled_order (market_type : String) (market side client_id : Option String)
      (page limit : Int)
  | get_filled_order (market_type : String) (market side : Option String) (page limit : Int)
  | get_unfilled_stop_order (market_type : String) (market side : Option String) (page limit : Int)
  | modify_order (market market_type : String) (order_id : Int) (amount price : Option String)
  | modify_stop_order (market market_type : String) (stop_id : Int)
      (amount price trigger_price : Option String)
  | cancel_all_orders (market market_type : String) (side : Option String)
  | cancel_order (market market_type : String) (order_id : Int)
  | cancel_stop_order (market market_type : String) (stop_id : Int)
  | cancel_batch_orders (market : String) (order_ids : List JVal)
  | cancel_batch_stop_orders (market : String) (stop_ids : List JVal)
  | cancel_order_by_client_id (market market_type client_id : String)
  | cancel_stop_order_by_client_id (market market_type client_id : String)
  | close_position_futures (market market_type order_type : String)
      (price amount client_id : Option String) (is_hide : Bool) (stp_mode : Option String)
  | make_request (method endpoint : String) (params data : Option PyDict)

/-- The request constructed by one call, by delegation to the corresponding
method embedding. -/
def CoinexAPI.dispatch (api : CoinexAPI) (c : ApiCall) (now_ms : Nat) : HttpRequest :=
  match c with
  | .get_market_status market => api.get_market_status market now_ms
  | .get_market_transactions market limit last_id => api.get_market_transactions market limit last_id now_ms
  | .get_market_index market => api.get_market_index market now_ms
  | .get_user_transactions market market_type side start_time end_time page limit =>
      api.get_user_transactions market market_type side start_time end_time page limit now_ms
  | .get_user_order_transactions market market_type order_id page limit =>
      api.get_user_order_transactions market market_type order_id page limit now_ms
  | .get_market_depth market limit interval => api.get_market_depth market limit interval now_ms
  | .get_market_depth_futures market limit interval => api.get_market_depth_futures market limit interval now_ms
  | .get_market_deals market limit last_id => api.get_market_deals market limit last_id now_ms
  | .get_market_deals_futures market limit last_id => api.get_market_deals_futures market limit last_id now_ms
  | .get_market_candlesticks market limit period => api.get_market_candlesticks market limit period now_ms
  | .get_market_candlesticks_futures market limit period price_type =>
      api.get_market_candlesticks_futures market limit period price_type now_ms
  | .get_market_information market => api.get_market_information market now_ms
  | .get_market_information_futures market => api.get_market_information_futures market now_ms
  | .get_balance => api.get_balance now_ms
  | .get_balance_futures => api.get_balance_futures now_ms
  | .adjust_position_leverage market market_type margin_mode leverage =>
      api.adjust_position_leverage market market_type margin_mode leverage now_ms
  | .get_current_position market market_type page limit =>
      api.get_current_position market market_type page limit now_ms
  | .place_order market market_type side order_type amount price ccy client_id is_hide stp_mode =>
      api.place_order market market_type side order_type amount price ccy client_id is_hide stp_mode now_ms
  | .place_order_futures market market_type side order_type amount price client_id is_hide stp_mode =>
      api.place_order_futures market market_type side order_type amount price client_id is_hide stp_mode now_ms
  | .place_stop_order market market_type side order_type amount trigger_price price ccy client_id is_hide stp_mode =>
      api.place_stop_order market market_type side order_type amount trigger_price price ccy client_id is_hide stp_mode now_ms
  | .batch_place_orders orders => api.batch_place_orders orders now_ms
  | .batch_place_stop_orders orders => api.batch_place_stop_orders orders now_ms
  | .query_order_status market order_id => api.query_order_status market order_id now_ms
  | .query_order_status_futures market order_id => api.query_order_status_futures market order_id now_ms
  | .batch_query_order_status market order_ids => api.batch_query_order_status market order_ids now_ms
  | .get_unfilled_order market_type market side client_id page limit =>
      api.get_unfilled_order market_type market side client_id page limit now_ms
  | .get_filled_order market_type market side page limit =>
      api.get_filled_order market_type market side page limit now_ms
  | .get_unfilled_stop_order market_type market side page limit =>
      api.get_unfilled_stop_order market_type market side page limit now_ms
  | .modify_order market market_type order_id amount price =>
      api.modify_order market market_type order_id amount price now_ms
  | .modify_stop_order market market_type stop_id amount price trigger_price =>
      api.modify_stop_order market market_type stop_id amount price trigger_price now_ms
  | .cancel_all_orders market market_type side => api.cancel_all_orders market market_type side now_ms
  | .cancel_order market market_type order_id => api.cancel_order market market_type order_id now_ms
  | .cancel_stop_order market market_type stop_id => api.cancel_stop_order market market_type stop_id now_ms
  | .cancel_batch_orders market order_ids => api.cancel_batch_orders market order_ids now_ms
  | .cancel_batch_stop_orders market stop_ids => api.cancel_batch_stop_orders market stop_ids now_ms
  | .cancel_order_by_client_id market market_type client_id =>
      api.cancel_order_by_client_id market market_type client_id now_ms
  | .cancel_stop_order_by_client_id market market_type client_id =>
      api.cancel_stop_order_by_client_id market market_type client_id now_ms
  | .close_position_futures market market_type order_type price amount client_id is_hide stp_mode =>
      api.close_position_futures market market_type order_type price amount client_id is_hide stp_mode now_ms
  | .make_request method endpoint params data => api.make_request method endpoint params data now_ms

/-- State-threaded form of one call: the constructed request together with
the client state after the call.  The bodies of all the dispatched methods
are assignment-free straight-line code reading self, so the post-state of
the translation is the receiver itself. -/
def CoinexAPI.step (api : CoinexAPI) (c : ApiCall) (now_ms : Nat) : HttpRequest × CoinexAPI :=
  (api.dispatch c now_ms, api)

/-- State-threaded form of the signer: its body reads self.secret_key and
assigns no attribute, so the post-state is the receiver. -/
def CoinexAPI.generate_signature_run (api : CoinexAPI) (method request_path : String)
    (body : Option PyDict) (now_ms : Nat) : (String × String) × CoinexAPI :=
  (api.generate_signature method request_path body now_ms, api)

/-! ## Helper lemmas and model validation -/

/-- Lower-case hexadecimal digits are fixed by lower-casing. -/
theorem toLower_hexDigit : ∀ n, n < 16 → Char.toLower (hexDigit n) = hexDigit n := by decide

/-- Hexadecimal character lists are fixed by character-wise lower-casing. -/
theorem map_toLower_bytesToHexChars (bs : List Nat) :
    (bytesToHexChars bs).map Char.toLower = bytesToHexChars bs := by
  induction bs with
  | nil => rfl
  | cons b bs ih =>
      rw [bytesToHexChars, List.map_cons, List.map_cons, ih,
        toLower_hexDigit _ (Nat.mod_lt _ (by norm_num)),
        toLower_hexDigit _ (Nat.mod_lt _ (by norm_num))]

/-- A hexdigest is already lower-case, so the lower method fixes it. -/
theorem pyLower_hexOfBytes (bs : List Nat) : pyLower (hexOfBytes bs) = hexOfBytes bs :=
  congrArg String.mk (map_toLower_bytesToHexChars bs)

/-- Validation of the SHA-256 model on the FIPS 180-4 one-block test vector. -/
theorem sha256_abc_vector :
    hexOfBytes (sha256 (latin1 "abc"))
      = "ba7816bf8f01cfea414140de5dae2223b00361a396177a9cb410ff61f20015ad" := by
  set_option maxRecDepth 100000 in decide

/-- Validation of the HMAC-SHA256 model on the classic RFC 2202 style test
vector with the key named key and the quick brown fox message. -/
theorem hmacSha256_fox_vector :
    hexOfBytes (hmacSha256 (latin1 "key") (latin1 "The quick brown fox jumps over the lazy dog"))
      = "f7bc83f430538424b13298e6aa6fb143ef4d59a14946175997479dbc2d1a3cd8" := by
  set_option maxRecDepth 400000 in decide

/-! ## The claims -/

/-- Claim C1: for every request issued by the request executor with method m,
endpoint e, query parameters p and body d, the string that is HMAC-signed
(whose digest lands in the signature header) is the concatenation of the
upper-cased method, the request path (slash v2 plus endpoint, with the query
string appended when the params are present), the body string, and the
timestamp string, in exactly that order with no separators. -/
theorem C1_signed_string_concatenation (api : CoinexAPI) (m e : String)
    (p d : Option PyDict) (now_ms : Nat) :
    (api.make_request m e p d now_ms).headers.lookup "X-COINEX-SIGN"
      = some (hexOfBytes (hmacSha256 (latin1 api.secret_key)
          (latin1 (pyUpper m ++ requestPath e p ++ body_string d ++ api.get_timestamp now_ms)))) := by
  show some (pyLower (hexOfBytes (hmacSha256 (latin1 api.secret_key)
      (latin1 (pyUpper m ++ requestPath e p ++ body_string d ++ api.get_timestamp now_ms)))))
    = some (hexOfBytes (hmacSha256 (latin1 api.secret_key)
      (latin1 (pyUpper m ++ requestPath e p ++ body_string d ++ api.get_timestamp now_ms))))
  exact congrArg some (pyLower_hexOfBytes _)

/-- The HMAC-SHA256 digest of the string s keyed by the latin-1 bytes of the
secret k, rendered as a lower-case hexadecimal string; this is the signature
the specification prescribes. -/
def hmacSha256HexLower (s k : String) : String :=
  hexOfBytes (hmacSha256 (latin1 k) (latin1 s))

/-- Claim C2: the signature computed by the signer equals the HMAC-SHA256
digest of the signable string keyed by the latin-1 bytes of the secret key,
rendered as a lower-case hexadecimal string; moreover the rendering is
already lower-case (lower-casing it again changes nothing). -/
theorem C2_signature_is_hmac_hex (api : CoinexAPI) (m path : String)
    (d : Option PyDict) (now_ms : Nat) :
    (api.generate_signature m path d now_ms).1
        = hmacSha256HexLower (m ++ path ++ body_string d ++ api.get_timestamp now_ms) api.secret_key
    ∧ pyLower ((api.generate_signature m path d now_ms).1)
        = (api.generate_signature m path d now_ms).1 := by
  constructor
  · exact pyLower_hexOfBytes _
  · show pyLower (pyLower (hexOfBytes _)) = pyLower (hexOfBytes _)
    rw [pyLower_hexOfBytes, pyLower_hexOfBytes]

/-- Claim C3: the request path is slash v2 plus the endpoint; with params
present (truthy) a question mark is appended, followed by the key equals
value pairs joined by ampersands in insertion order, with no percent-encoding
and no sorting; with no params (absent or empty dict) nothing is appended. -/
theorem C3_request_path (e : String) (p : PyDict) :
    requestPath e none = "/v2" ++ e
    ∧ requestPath e (some []) = "/v2" ++ e
    ∧ (p ≠ [] → requestPath e (some p)
        = "/v2" ++ e ++ "?"
          ++ String.intercalate "&" (p.map (fun kv => kv.1 ++ "=" ++ pyStr kv.2))) := by
  refine ⟨rfl, rfl, fun hp => ?_⟩
  match p, hp with
  | kv :: kvs, _ => rfl

/-- Witness for claim C3 at a concrete one-pair params dict. -/
theorem C3_request_path_witness :
    requestPath "/spot/market" (some [("market", JVal.str "BTCUSDT")])
      = "/v2" ++ "/spot/market" ++ "?"
        ++ String.intercalate "&"
            ([("market", JVal.str "BTCUSDT")].map (fun kv => kv.1 ++ "=" ++ pyStr kv.2)) :=
  (C3_request_path "/spot/market" [("market", JVal.str "BTCUSDT")]).2.2 (List.cons_ne_nil _ _)

/-- Counterexample to claim C4 as stated: with an empty body mapping present,
the body string is the empty string, not the JSON serialization of the empty
mapping (the source guards the dump with Python truthiness, and an empty dict
is falsy). -/
theorem C4_counterexample :
    body_string (some []) = "" ∧ body_string (some []) ≠ jsonDumps [] := by
  refine ⟨rfl, ?_⟩
  decide

/-- Claim C4 as amended: the body string is the JSON serialization of the
body mapping when a non-empty body mapping is present, and the empty string
when the body is absent or the present mapping is empty. -/
theorem C4_body_string (d : PyDict) :
    body_string none = ""
    ∧ body_string (some []) = ""
    ∧ (d ≠ [] → body_string (some d) = jsonDumps d) := by
  refine ⟨rfl, rfl, fun hd => ?_⟩
  match d, hd with
  | kv :: kvs, _ => rfl

/-- Witness for the amended claim C4 at a concrete one-pair body. -/
theorem C4_body_string_witness :
    body_string (some [("market", JVal.str "BTCUSDT")])
      = jsonDumps [("market", JVal.str "BTCUSDT")] :=
  (C4_body_string [("market", JVal.str "BTCUSDT")]).2.2 (List.cons_ne_nil _ _)

/-- A concrete order body, market key first. -/
def c5_body1 : PyDict := [("market", JVal.str "BTCUSDT"), ("side", JVal.str "buy")]

/-- The same key-value pairs in the opposite insertion order. -/
def c5_body2 : PyDict := [("side", JVal.str "buy"), ("market", JVal.str "BTCUSDT")]

/-- A concrete client for the order-dependence claim. -/
def c5_api : CoinexAPI := CoinexAPI.init "access-id" "secret-key"

/-- Claim C5: the signature depends on the key insertion order of the body
mapping: the two bodies above hold the same pairs in different orders, yet
with the same method, path, secret key and timestamp the signer produces
different signatures. -/
theorem C5_signature_depends_on_key_order :
    c5_body2.Perm c5_body1
    ∧ (c5_api.generate_signature "POST" "/v2/spot/order" (some c5_body1) 1700000000000).1
        ≠ (c5_api.generate_signature "POST" "/v2/spot/order" (some c5_body2) 1700000000000).1 := by
  constructor
  · unfold c5_body1 c5_body2
    exact List.Perm.swap _ _ _
  · set_option maxRecDepth 1000000 in decide

/-- Claim C6: the outgoing request carries exactly the four headers, in
order: the access-id header, the computed signature header, the timestamp
header carrying the very timestamp that was signed, and the JSON
content-type header; and the final URL is the base endpoint concatenated
with the request path including any query string. -/
theorem C6_headers_and_url (api : CoinexAPI) (m e : String) (p d : Option PyDict)
    (now_ms : Nat) :
    (api.make_request m e p d now_ms).headers
        = [("X-COINEX-KEY", api.access_id),
           ("X-COINEX-SIGN", (api.generate_signature (pyUpper m) (requestPath e p) d now_ms).1),
           ("X-COINEX-TIMESTAMP", api.get_timestamp now_ms),
           ("Content-Type", "application/json; charset=utf-8")]
    ∧ (api.make_request m e p d now_ms).headers.length = 4
    ∧ (api.generate_signature (pyUpper m) (requestPath e p) d now_ms).2 = api.get_timestamp now_ms
    ∧ (api.make_request m e p d now_ms).url = BASE_URL ++ requestPath e p :=
  ⟨rfl, rfl, rfl, rfl⟩

/-- Claim C7: every public endpoint method of CoinexAPI constructs a
parameter map from its arguments and forwards it, as query params or body,
together with a fixed HTTP method and a fixed endpoint path, to the single
shared request routine, returning its result unchanged.  One conjunct per
endpoint method of the source, in source order; the network response is
outside the model, so the result of the shared routine is the constructed
request, which each method returns as is. -/
theorem C7_all_methods_delegate (api : CoinexAPI) :
    (∀ market now_ms, api.get_market_status market now_ms
      = api.make_request "GET" "/spot/market" (some (get_market_status_params market)) none now_ms)
    ∧ (∀ market limit last_id now_ms, api.get_market_transactions market limit last_id now_ms
      = api.make_request "GET" "/spot/deals"
          (some [("market", JVal.str market), ("limit", JVal.int limit), ("last_id", JVal.int last_id)])
          none now_ms)
    ∧ (∀ market now_ms, api.get_market_index market now_ms
      = api.make_request "GET" "/spot/index" (some (get_market_index_params market)) none now_ms)
    ∧ (∀ market market_type side start_time end_time page limit now_ms,
        api.get_user_transactions market market_type side start_time end_time page limit now_ms
      = api.make_request "GET" "/spot/user-deals"
          (some (get_user_transactions_params market market_type side start_time end_time page limit))
          none now_ms)
    ∧ (∀ market market_type order_id page limit now_ms,
        api.get_user_order_transactions market market_type order_id page limit now_ms
      = api.make_request "GET" "/spot/order-deals"
          (some [("market", JVal.str market), ("market_type", JVal.str market_type),
                 ("order_id", JVal.int order_id), ("page", JVal.int page), ("limit", JVal.int limit)])
          none now_ms)
    ∧ (∀ market limit interval now_ms, api.get_market_depth market limit interval now_ms
      = api.make_request "GET" "/spot/depth"
          (some [("market", JVal.str market), ("limit", JVal.int limit), ("interval", JVal.str interval)])
          none now_ms)
    ∧ (∀ market limit interval now_ms, api.get_market_depth_futures market limit interval now_ms
      = api.make_request "GET" "/futures/depth"
          (some [("market", JVal.str market), ("limit", JVal.int limit), ("interval", JVal.str interval)])
          none now_ms)
    ∧ (∀ market limit last_id now_ms, api.get_market_deals market limit last_id now_ms
      = api.make_request "GET" "/spot/deals"
          (some [("market", JVal.str market), ("limit", JVal.int limit), ("last_id", JVal.int last_id)])
          none now_ms)
    ∧ (∀ market limit last_id now_ms, api.get_market_deals_futures market limit last_id now_ms
      = api.make_request "GET" "/futures/deals"
          (some [("market", JVal.str market), ("limit", JVal.int limit), ("last_id", JVal.int last_id)])
          none now_ms)
    ∧ (∀ market limit period now_ms, api.get_market_candlesticks market limit period now_ms
      = api.make_request "GET" "/spot/kline"
          (some [("market", JVal.str market), ("limit", JVal.int limit), ("period", JVal.str period)])
          none now_ms)
    ∧ (∀ market limit period price_type now_ms,
        api.get_market_candlesticks_futures market limit period price_type now_ms
      = api.make_request "GET" "/futures/kline"
          (some [("market", JVal.str market), ("price_type", JVal.str price_type),
                 ("limit", JVal.int limit), ("period", JVal.str period)])
          none now_ms)
    ∧ (∀ market now_ms, api.get_market_information market now_ms
      = api.make_request "GET" "/spot/ticker" (some (get_market_information_params market)) none now_ms)
    ∧ (∀ market now_ms, api.get_market_information_futures market now_ms
      = api.make_request "GET" "/futures/ticker" (some [("market", JVal.str market)]) none now_ms)
    ∧ (∀ now_ms, api.get_balance now_ms
      = api.make_request "GET" "/assets/spot/balance" none none now_ms)
    ∧ (∀ now_ms, api.get_balance_futures now_ms
      = api.make_request "GET" "/assets/futures/balance" none none now_ms)
    ∧ (∀ market market_type margin_mode leverage now_ms,
        api.adjust_position_leverage market market_type margin_mode leverage now_ms
      = api.make_request "POST" "/futures/adjust-position-leverage" none
          (some [("market", JVal.str market), ("market_type", JVal.str market_type),
                 ("margin_mode", JVal.str margin_mode), ("leverage", JVal.int leverage)]) now_ms)
    ∧ (∀ market market_type page limit now_ms,
        api.get_current_position market market_type page limit now_ms
      = api.make_request "GET" "/futures/pending-position"
          (some [("market", JVal.str market), ("market_type", JVal.str market_type),
                 ("page", JVal.int page), ("limit", JVal.int limit)]) none now_ms)
    ∧ (∀ market market_type side order_type amount price ccy client_id is_hide stp_mode now_ms,
        api.place_order market market_type side order_type amount price ccy client_id is_hide stp_mode now_ms
      = api.make_request "POST" "/spot/order" none
          (some (place_order_data market market_type side order_type amount price ccy client_id is_hide stp_mode))
          now_ms)
    ∧ (∀ market market_type side order_type amount price client_id is_hide stp_mode now_ms,
        api.place_order_futures market market_type side order_type amount price client_id is_hide stp_mode now_ms
      = api.make_request "POST" "/futures/order" none
          (some (place_order_futures_data market market_type side order_type amount price client_id is_hide stp_mode))
          now_ms)
    ∧ (∀ market market_type side order_type amount trigger_price price ccy client_id is_hide stp_mode now_ms,
        api.place_stop_order market market_type side order_type amount trigger_price price ccy client_id is_hide stp_mode now_ms
      = api.make_request "POST" "/spot/stop-order" none
          (some (place_stop_order_data market market_type side order_type amount trigger_price price ccy client_id is_hide stp_mode))
          now_ms)
    ∧ (∀ orders now_ms, api.batch_place_orders orders now_ms
      = api.make_request "POST" "/spot/batch-order" none (some [("orders", JVal.arr orders)]) now_ms)
    ∧ (∀ orders now_ms, api.batch_place_stop_orders orders now_ms
      = api.make_request "POST" "/spot/batch-stop-order" none (some [("orders", JVal.arr orders)]) now_ms)
    ∧ (∀ market order_id now_ms, api.query_order_status market order_id now_ms
      = api.make_request "GET" "/spot/order-status"
          (some [("market", JVal.str market), ("order_id", JVal.int order_id)]) none now_ms)
    ∧ (∀ market order_id now_ms, api.query_order_status_futures market order_id now_ms
      = api.make_request "GET" "/futures/order-status"
          (some [("market", JVal.str market), ("order_id", JVal.int order_id)]) none now_ms)
    ∧ (∀ market order_ids now_ms, api.batch_query_order_status market order_ids now_ms
      = api.make_request "GET" "/spot/batch-order-status"
          (some [("market", JVal.str market), ("order_ids", JVal.str order_ids)]) none now_ms)
    ∧ (∀ market_type market side client_id page limit now_ms,
        api.get_unfilled_order market_type market side client_id page limit now_ms
      = api.make_request "GET" "/spot/pending-order"
          (some (get_unfilled_order_params market_type market side client_id page limit)) none now_ms)
    ∧ (∀ market_type market side page limit now_ms,
        api.get_filled_order market_type market side page limit now_ms
      = api.make_request "GET" "/spot/finished-order"
          (some (get_filled_order_params market_type market side page limit)) none now_ms)
    ∧ (∀ market_type market side page limit now_ms,
        api.get_unfilled_stop_order market_type market side page limit now_ms
      = api.make_request "GET" "/spot/pending-stop-order"
          (some (get_unfilled_stop_order_params market_type market side page limit)) none now_ms)
    ∧ (∀ market market_type order_id amount price now_ms,
        api.modify_order market market_type order_id amount price now_ms
      = api.make_request "POST" "/spot/modify-order" none
          (some (modify_order_data market market_type order_id amount price)) now_ms)
    ∧ (∀ market market_type stop_id amount price trigger_price now_ms,
        api.modify_stop_order market market_type stop_id amount price trigger_price now_ms
      = api.make_request "POST" "/spot/modify-stop-order" none
          (some (modify_stop_order_data market market_type stop_id amount price trigger_price)) now_ms)
    ∧ (∀ market market_type side now_ms, api.cancel_all_orders market market_type side now_ms
      = api.make_request "POST" "/spot/cancel-all-order" none
          (some (cancel_all_orders_data market market_type side)) now_ms)
    ∧ (∀ market market_type order_id now_ms, api.cancel_order market market_type order_id now_ms
      = api.make_request "POST" "/spot/cancel-order" none
          (some [("market", JVal.str market), ("market_type", JVal.str market_type),
                 ("order_id", JVal.int order_id)]) now_ms)
    ∧ (∀ market market_type stop_id now_ms, api.cancel_stop_order market market_type stop_id now_ms
      = api.make_request "POST" "/spot/cancel-stop-order" none
          (some [("market", JVal.str market), ("market_type", JVal.str market_type),
                 ("stop_id", JVal.int stop_id)]) now_ms)
    ∧ (∀ market order_ids now_ms, api.cancel_batch_orders market order_ids now_ms
      = api.make_request "POST" "/spot/cancel-batch-order" none
          (some [("market", JVal.str market), ("order_ids", JVal.arr order_ids)]) now_ms)
    ∧ (∀ market stop_ids now_ms, api.cancel_batch_stop_orders market stop_ids now_ms
      = api.make_request "POST" "/spot/cancel-batch-stop-order" none
          (some [("market", JVal.str market), ("stop_ids", JVal.arr stop_ids)]) now_ms)
    ∧ (∀ market market_type client_id now_ms, api.cancel_order_by_client_id market market_type client_id now_ms
      = api.make_request "POST" "/spot/cancel-order-by-client-id" none
          (some [("market", JVal.str market), ("market_type", JVal.str market_type),
                 ("client_id", JVal.str client_id)]) now_ms)
    ∧ (∀ market market_type client_id now_ms, api.cancel_stop_order_by_client_id market market_type client_id now_ms
      = api.make_request "POST" "/spot/cancel-stop-order-by-client-id" none
          (some [("market", JVal.str market), ("market_type", JVal.str market_type),
                 ("client_id", JVal.str client_id)]) now_ms)
    ∧ (∀ market market_type order_type price amount client_id is_hide stp_mode now_ms,
        api.close_position_futures market market_type order_type price amount client_id is_hide stp_mode now_ms
      = api.make_request "POST" "/futures/close-position" none
          (some (close_position_futures_data market market_type order_type price amount client_id is_hide stp_mode))
          now_ms) := by
  refine ⟨?_, ?_, ?_, ?_, ?_, ?_, ?_, ?_, ?_, ?_, ?_, ?_, ?_, ?_, ?_, ?_, ?_, ?_, ?_, ?_,
          ?_, ?_, ?_, ?_, ?_, ?_, ?_, ?_, ?_, ?_, ?_, ?_, ?_, ?_, ?_, ?_, ?_, ?_⟩ <;>
    · intros
      rfl

/-- Counterexample to claim C8 as stated: get_user_transactions gates its
optional arguments on Python truthiness rather than on None, so the non-null
argument zero for start_time does not appear in the parameter mapping under
its documented key. -/
theorem C8_counterexample :
    (some (0 : Int) ≠ none)
    ∧ (get_user_transactions_params "BTCUSDT" "SPOT" none (some 0) none 1 10).lookup "start_time"
        = none := by
  refine ⟨Option.some_ne_none 0, ?_⟩
  rfl

/-- Claim C8 as amended: in the ten endpoint methods that test their
optional arguments against None (place_order, place_order_futures,
place_stop_order, get_unfilled_order, get_filled_order,
get_unfilled_stop_order, modify_order, modify_stop_order, cancel_all_orders
and close_position_futures), an optional argument passed as None is omitted
from the mapping and every other argument appears under its documented key;
get_user_transactions instead tests Python truthiness, so its optional side,
start_time and end_time appear exactly when truthy, and falsy non-null
values (the empty string, zero) are omitted as well.  One conjunct per
method, in source order. -/
theorem C8_optional_argument_marshaling :
    (∀ market market_type side start_time end_time page limit,
      (get_user_transactions_params market market_type side start_time end_time page limit).lookup "market" = some (JVal.str market)
      ∧ (get_user_transactions_params market market_type side start_time end_time page limit).lookup "market_type" = some (JVal.str market_type)
      ∧ (get_user_transactions_params market market_type side start_time end_time page limit).lookup "page" = some (JVal.int page)
      ∧ (get_user_transactions_params market market_type side start_time end_time page limit).lookup "limit" = some (JVal.int limit)
      ∧ (get_user_transactions_params market market_type side start_time end_time page limit).lookup "side"
          = (if optStrTruthy side then side.map JVal.str else none)
      ∧ (get_user_transactions_params market market_type side start_time end_time page limit).lookup "start_time"
          = (if optIntTruthy start_time then start_time.map JVal.int else none)
      ∧ (get_user_transactions_params market market_type side start_time end_time page limit).lookup "end_time"
          = (if optIntTruthy end_time then end_time.map JVal.int else none))
    ∧ (∀ market market_type side order_type amount price ccy client_id is_hide stp_mode,
      (place_order_data market market_type side order_type amount price ccy client_id is_hide stp_mode).lookup "market" = some (JVal.str market)
      ∧ (place_order_data market market_type side order_type amount price ccy client_id is_hide stp_mode).lookup "market_type" = some (JVal.str market_type)
      ∧ (place_order_data market market_type side order_type amount price ccy client_id is_hide stp_mode).lookup "side" = some (JVal.str side)
      ∧ (place_order_data market market_type side order_type amount price ccy client_id is_hide stp_mode).lookup "type" = some (JVal.str order_type)
      ∧ (place_order_data market market_type side order_type amount price ccy client_id is_hide stp_mode).lookup "amount" = some (JVal.str amount)
      ∧ (place_order_data market market_type side order_type amount price ccy client_id is_hide stp_mode).lookup "is_hide" = some (JVal.bool is_hide)
      ∧ (place_order_data market market_type side order_type amount price ccy client_id is_hide stp_mode).lookup "price" = price.map JVal.str
      ∧ (place_order_data market market_type side order_type amount price ccy client_id is_hide stp_mode).lookup "ccy" = ccy.map JVal.str
      ∧ (place_order_data market market_type side order_type amount price ccy client_id is_hide stp_mode).lookup "client_id" = client_id.map JVal.str
      ∧ (place_order_data market market_type side order_type amount price ccy client_id is_hide stp_mode).lookup "stp_mode" = stp_mode.map JVal.str)
    ∧ (∀ market market_type side order_type amount price client_id is_hide stp_mode,
      (place_order_futures_data market market_type side order_type amount price client_id is_hide stp_mode).lookup "market" = some (JVal.str market)
      ∧ (place_order_futures_data market market_type side order_type amount price client_id is_hide stp_mode).lookup "market_type" = some (JVal.str market_type)
      ∧ (place_order_futures_data market market_type side order_type amount price client_id is_hide stp_mode).lookup "side" = some (JVal.str side)
      ∧ (place_order_futures_data market market_type side order_type amount price client_id is_hide stp_mode).lookup "type" = some (JVal.str order_type)
      ∧ (place_order_futures_data market market_type side order_type amount price client_id is_hide stp_mode).lookup "amount" = some (JVal.str amount)
      ∧ (place_order_futures_data market market_type side order_type amount price client_id is_hide stp_mode).lookup "is_hide" = some (JVal.bool is_hide)
      ∧ (place_order_futures_data market market_type side order_type amount price client_id is_hide stp_mode).lookup "price" = price.map JVal.str
      ∧ (place_order_futures_data market market_type side order_type amount price client_id is_hide stp_mode).lookup "client_id" = client_id.map JVal.str
      ∧ (place_order_futures_data market market_type side order_type amount price client_id is_hide stp_mode).lookup "stp_mode" = stp_mode.map JVal.str)
    ∧ (∀ market market_type side order_type amount trigger_price price ccy client_id is_hide stp_mode,
      (place_stop_order_data market market_type side order_type amount trigger_price price ccy client_id is_hide stp_mode).lookup "market" = some (JVal.str market)
      ∧ (place_stop_order_data market market_type side order_type amount trigger_price price ccy client_id is_hide stp_mode).lookup "market_type" = some (JVal.str market_type)
      ∧ (place_stop_order_data market market_type side order_type amount trigger_price price ccy client_id is_hide stp_mode).lookup "side" = some (JVal.str side)
      ∧ (place_stop_order_data market market_type side order_type amount trigger_price price ccy client_id is_hide stp_mode).lookup "type" = some (JVal.str order_type)
      ∧ (place_stop_order_data market market_type side order_type amount trigger_price price ccy client_id is_hide stp_mode).lookup "amount" = some (JVal.str amount)
      ∧ (place_stop_order_data market market_type side order_type amount trigger_price price ccy client_id is_hide stp_mode).lookup "trigger_price" = some (JVal.str trigger_price)
      ∧ (place_stop_order_data market market_type side order_type amount trigger_price price ccy client_id is_hide stp_mode).lookup "is_hide" = some (JVal.bool is_hide)
      ∧ (place_stop_order_data market market_type side order_type amount trigger_price price ccy client_id is_hide stp_mode).lookup "price" = price.map JVal.str
      ∧ (place_stop_order_data market market_type side order_type amount trigger_price price ccy client_id is_hide stp_mode).lookup "ccy" = ccy.map JVal.str
      ∧ (place_stop_order_data market market_type side order_type amount trigger_price price ccy client_id is_hide stp_mode).lookup "client_id" = client_id.map JVal.str
      ∧ (place_stop_order_data market market_type side order_type amount trigger_price price ccy client_id is_hide stp_mode).lookup "stp_mode" = stp_mode.map JVal.str)
    ∧ (∀ market_type market side client_id page limit,
      (get_unfilled_order_params market_type market side client_id page limit).lookup "market_type" = some (JVal.str market_type)
      ∧ (get_unfilled_order_params market_type market side client_id page limit).lookup "page" = some (JVal.int page)
      ∧ (get_unfilled_order_params market_type market side client_id page limit).lookup "limit" = some (JVal.int limit)
      ∧ (get_unfilled_order_params market_type market side client_id page limit).lookup "market" = market.map JVal.str
      ∧ (get_unfilled_order_params market_type market side client_id page limit).lookup "side" = side.map JVal.str
      ∧ (get_unfilled_order_params market_type market side client_id page limit).lookup "client_id" = client_id.map JVal.str)
    ∧ (∀ market_type market side page limit,
      (get_filled_order_params market_type market side page limit).lookup "market_type" = some (JVal.str market_type)
      ∧ (get_filled_order_params market_type market side page limit).lookup "page" = some (JVal.int page)
      ∧ (get_filled_order_params market_type market side page limit).lookup "limit" = some (JVal.int limit)
      ∧ (get_filled_order_params market_type market side page limit).lookup "market" = market.map JVal.str
      ∧ (get_filled_order_params market_type market side page limit).lookup "side" = side.map JVal.str)
    ∧ (∀ market_type market side page limit,
      (get_unfilled_stop_order_params market_type market side page limit).lookup "market_type" = some (JVal.str market_type)
      ∧ (get_unfilled_stop_order_params market_type market side page limit).lookup "page" = some (JVal.int page)
      ∧ (get_unfilled_stop_order_params market_type market side page limit).lookup "limit" = some (JVal.int limit)
      ∧ (get_unfilled_stop_order_params market_type market side page limit).lookup "market" = market.map JVal.str
      ∧ (get_unfilled_stop_order_params market_type market side page limit).lookup "side" = side.map JVal.str)
    ∧ (∀ market market_type order_id amount price,
      (modify_order_data market market_type order_id amount price).lookup "market" = some (JVal.str market)
      ∧ (modify_order_data market market_type order_id amount price).lookup "market_type" = some (JVal.str market_type)
      ∧ (modify_order_data market market_type order_id amount price).lookup "order_id" = some (JVal.int order_id)
      ∧ (modify_order_data market market_type order_id amount price).lookup "amount" = amount.map JVal.str
      ∧ (modify_order_data market market_type order_id amount price).lookup "price" = price.map JVal.str)
    ∧ (∀ market market_type stop_id amount price trigger_price,
      (modify_stop_order_data market market_type stop_id amount price trigger_price).lookup "market" = some (JVal.str market)
      ∧ (modify_stop_order_data market market_type stop_id amount price trigger_price).lookup "market_type" = some (JVal.str market_type)
      ∧ (modify_stop_order_data market market_type stop_id amount price trigger_price).lookup "stop_id" = some (JVal.int stop_id)
      ∧ (modify_stop_order_data market market_type stop_id amount price trigger_price).lookup "amount" = amount.map JVal.str
      ∧ (modify_stop_order_data market market_type stop_id amount price trigger_price).lookup "price" = price.map JVal.str
      ∧ (modify_stop_order_data market market_type stop_id amount price trigger_price).lookup "trigger_price" = trigger_price.map JVal.str)
    ∧ (∀ market market_type side,
      (cancel_all_orders_data market market_type side).lookup "market" = some (JVal.str market)
      ∧ (cancel_all_orders_data market market_type side).lookup "market_type" = some (JVal.str market_type)
      ∧ (cancel_all_orders_data market market_type side).lookup "side" = side.map JVal.str)
    ∧ (∀ market market_type order_type price amount client_id is_hide stp_mode,
      (close_position_futures_data market market_type order_type price amount client_id is_hide stp_mode).lookup "market" = some (JVal.str market)
      ∧ (close_position_futures_data market market_type order_type price amount client_id is_hide stp_mode).lookup "market_type" = some (JVal.str market_type)
      ∧ (close_position_futures_data market market_type order_type price amount client_id is_hide stp_mode).lookup "type" = some (JVal.str order_type)
      ∧ (close_position_futures_data market market_type order_type price amount client_id is_hide stp_mode).lookup "is_hide" = some (JVal.bool is_hide)
      ∧ (close_position_futures_data market market_type order_type price amount client_id is_hide stp_mode).lookup "price" = price.map JVal.str
      ∧ (close_position_futures_data market market_type order_type price amount client_id is_hide stp_mode).lookup "amount" = amount.map JVal.str
      ∧ (close_position_futures_data market market_type order_type price amount client_id is_hide stp_mode).lookup "client_id" = client_id.map JVal.str
      ∧ (close_position_futures_data market market_type order_type price amount client_id is_hide stp_mode).lookup "stp_mode" = stp_mode.map JVal.str) := by
  refine ⟨?_, ?_, ?_, ?_, ?_, ?_, ?_, ?_, ?_, ?_, ?_⟩
  · intro market market_type side start_time end_time page limit
    cases hb1 : optStrTruthy side <;> cases hb2 : optIntTruthy start_time <;>
      cases hb3 : optIntTruthy end_time <;>
      rcases side with _ | s <;> rcases start_time with _ | n1 <;> rcases end_time with _ | n2 <;>
      simp_all [get_user_transactions_params, optStrTruthy, optIntTruthy, List.lookup]
  · intro market market_type side order_type amount price ccy client_id is_hide stp_mode
    rcases price with _ | pv <;> rcases ccy with _ | cv <;> rcases client_id with _ | iv <;>
      rcases stp_mode with _ | sv <;>
      exact ⟨rfl, rfl, rfl, rfl, rfl, rfl, rfl, rfl, rfl, rfl⟩
  · intro market market_type side order_type amount price client_id is_hide stp_mode
    rcases price with _ | pv <;> rcases client_id with _ | iv <;> rcases stp_mode with _ | sv <;>
      exact ⟨rfl, rfl, rfl, rfl, rfl, rfl, rfl, rfl, rfl⟩
  · intro market market_type side order_type amount trigger_price price ccy client_id is_hide stp_mode
    rcases price with _ | pv <;> rcases ccy with _ | cv <;> rcases client_id with _ | iv <;>
      rcases stp_mode with _ | sv <;>
      exact ⟨rfl, rfl, rfl, rfl, rfl, rfl, rfl, rfl, rfl, rfl, rfl⟩
  · intro market_type market side client_id page limit
    rcases market with _ | mv <;> rcases side with _ | sv <;> rcases client_id with _ | iv <;>
      exact ⟨rfl, rfl, rfl, rfl, rfl, rfl⟩
  · intro market_type market side page limit
    rcases market with _ | mv <;> rcases side with _ | sv <;>
      exact ⟨rfl, rfl, rfl, rfl, rfl⟩
  · intro market_type market side page limit
    rcases market with _ | mv <;> rcases side with _ | sv <;>
      exact ⟨rfl, rfl, rfl, rfl, rfl⟩
  · intro market market_type order_id amount price
    rcases amount with _ | av <;> rcases price with _ | pv <;>
      exact ⟨rfl, rfl, rfl, rfl, rfl⟩
  · intro market market_type stop_id amount price trigger_price
    rcases amount with _ | av <;> rcases price with _ | pv <;> rcases trigger_price with _ | tv <;>
      exact ⟨rfl, rfl, rfl, rfl, rfl, rfl⟩
  · intro market market_type side
    rcases side with _ | sv <;>
      exact ⟨rfl, rfl, rfl⟩
  · intro market market_type order_type price amount client_id is_hide stp_mode
    rcases price with _ | pv <;> rcases amount with _ | av <;> rcases client_id with _ | iv <;>
      rcases stp_mode with _ | sv <;>
      exact ⟨rfl, rfl, rfl, rfl, rfl, rfl, rfl, rfl⟩

/-- Claim C9: every operation of CoinexAPI leaves the per-client credential
state unchanged: after any endpoint method or the request executor runs (in
state-threaded form), the access id and the secret key still equal the
values given to the constructor, and likewise after the signer runs; the
base URL is a constant of the class, unchanged from its literal value. -/
theorem C9_credentials_unchanged (a s : String) (c : ApiCall) (now_ms : Nat)
    (m path : String) (d : Option PyDict) :
    (((CoinexAPI.init a s).step c now_ms).2.access_id = a)
    ∧ (((CoinexAPI.init a s).step c now_ms).2.secret_key = s)
    ∧ (((CoinexAPI.init a s).step c now_ms).2 = CoinexAPI.init a s)
    ∧ (((CoinexAPI.init a s).generate_signature_run m path d now_ms).2 = CoinexAPI.init a s)
    ∧ BASE_URL = "https://api.coinex.com" :=
  ⟨rfl, rfl, rfl, rfl, rfl⟩

/-- Claim C10: get_market_deals and get_market_transactions build the same
request for all arguments; both issue a GET to the spot deals endpoint with
the identical parameter mapping of market, limit and last id, so the two
methods are extensionally equal. -/
theorem C10_deals_equals_transactions (api : CoinexAPI) (market : String)
    (limit last_id : Int) (now_ms : Nat) :
    api.get_market_deals market limit last_id now_ms
        = api.get_market_transactions market limit last_id now_ms
    ∧ api.get_market_deals market limit last_id now_ms
        = api.make_request "GET" "/spot/deals"
            (some [("market", JVal.str market), ("limit", JVal.int limit), ("last_id", JVal.int last_id)])
            none now_ms :=
  ⟨rfl, rfl⟩
